import Mathlib

/-!
# Verification of gtop (GPU monitoring TUI)

Shallow embedding of the Python sources of `stivio00/gtop` into Lean 4,
together with theorems settling the specification claims.

Conventions of the embedding:
* Python `int` is `Int`, Python `float` is `Rat` (no claim constrains
  float rounding), Python strings are `String`.
* Fallible external reads (NVML device queries, `/proc` reads, psutil
  probes, `docker.from_env()`, socket connects) are modelled as `Option`
  valued oracles passed in as parameters: `none` means the call raised the
  exception the surrounding Python `try` catches.
* `random.randint a b` / `random.uniform a b` consume one value of a raw
  entropy stream `rng : Nat → Nat`; every call site uses a distinct stream
  position, so theorems quantified over `rng` cover every behaviour of the
  Python RNG.
-/

/-- Python's `pat in s` substring test: does `pat` occur contiguously in `s`?
`isSubAt pat s` checks `pat` is a prefix of `s`. -/
def isSubAt : List Char → List Char → Bool
  | [], _ => true
  | _ :: _, [] => false
  | p :: ps, c :: cs => p == c && isSubAt ps cs

/-- Containment of `pat` anywhere in `s` (list-of-chars form). -/
def containsSub (pat : List Char) : List Char → Bool
  | [] => pat.isEmpty
  | c :: cs => isSubAt pat (c :: cs) || containsSub pat cs

/-- Python `pat in s` for strings. -/
def pyIn (pat s : String) : Bool := containsSub pat.toList s.toList

/-- Python `s.lower()` (character-wise lowercasing, as `String.toLower`
does, but stated over the character list so that it computes in the
kernel). -/
def pyLower (s : String) : String := String.mk (s.toList.map Char.toLower)

/-- `random.randint a b`: an integer in `[a, b]`, derived from one raw
entropy value `r`. -/
def pyRandint (r : Nat) (a b : Int) : Int := a + Int.ofNat (r % (b - a + 1).toNat)

/-- `random.uniform a b`: a number in `[a, b]`, derived from one raw
entropy value `r` (floats modelled as rationals). -/
def pyUniform (r : Nat) (a b : Rat) : Rat := a + (b - a) * (r % 1001 : Nat) / 1000

/-- `models.GPUStats` (pydantic model, models.py). -/
structure GPUStats where
  index : Int
  name : String
  util : Int
  mem_used : Int
  mem_total : Int
  temp : Int
  power : Rat
  deriving Repr, DecidableEq

/-- `models.GPUProcess` (pydantic model, models.py). -/
structure GPUProcess where
  gpu_index : Int
  pid : Int
  name : String
  cmdline : String
  mem_mb : Rat
  container : Bool
  container_name : String
  container_ports : String
  deriving Repr, DecidableEq

/-- `demo.get_demo_gpu_stats` (demo.py lines 9–24): four synthetic GPUs.
Stream positions `4*idx .. 4*idx+3` feed the four random calls of
iteration `idx`. -/
def get_demo_gpu_stats (rng : Nat → Nat) : List GPUStats :=
  (List.range 4).map fun idx =>
    { index := Int.ofNat idx
      name := "DemoGPU" ++ toString idx
      util := pyRandint (rng (4 * idx)) 0 100
      mem_used := pyRandint (rng (4 * idx + 1)) 0 16384
      mem_total := 16384
      temp := pyRandint (rng (4 * idx + 2)) 20 90
      power := pyUniform (rng (4 * idx + 3)) 10 250 }

/-- `demo.get_demo_gpu_processes` (demo.py lines 27–47): ten synthetic
processes for one GPU index. -/
def get_demo_gpu_processes (rng : Nat → Nat) (gpu_index : Int) : List GPUProcess :=
  (List.range 10).map fun i =>
    let pid : Int := 1000 + gpu_index * 10 + Int.ofNat i
    let is_container : Bool := i % 3 == 0
    { gpu_index := gpu_index
      pid := pid
      name := "proc" ++ toString pid
      cmdline := "/usr/bin/proc" ++ toString pid ++ " --arg"
      mem_mb := pyUniform (rng i) 10 2048
      container := is_container
      container_name := if is_container then "demo-container-" ++ toString pid else ""
      container_ports := if is_container then "8000→8000, 5432→5432" else "" }

/-- The part of the `demo.get_demo_process_details` result (demo.py lines
50–130) the claims are about: the `is_triton` decision, the env keys it
adds, and the `exe` field. -/
structure DemoProcessDetails where
  pid : Int
  is_triton : Bool
  env_keys : List String
  exe : String
  status : String
  deriving Repr, DecidableEq

/-- `demo.get_demo_process_details` (demo.py lines 50–130). -/
def get_demo_process_details (pid : Int) : DemoProcessDetails :=
  let is_triton : Bool := pid % 5 == 0
  let base_env : List String :=
    ["PATH", "CUDA_VISIBLE_DEVICES", "USER", "HOME", "SHELL", "PWD", "LANG",
     "LD_LIBRARY_PATH", "NVIDIA_VISIBLE_DEVICES", "PYTHONUNBUFFERED",
     "TF_CPP_MIN_LOG_LEVEL"]
  { pid := pid
    is_triton := is_triton
    env_keys :=
      if is_triton then
        base_env ++ ["TRITON_MODEL_REPOSITORY", "TRITON_METRICS_PORT",
                     "TRITON_GRPC_PORT", "TRITON_HTTP_PORT"]
      else base_env
    exe := if is_triton then "/usr/bin/python3" else "/usr/bin/proc" ++ toString pid
    status := "running" }

/-- One successful NVML device query inside the loop of
`gpu.get_gpu_stats` (gpu.py lines 38–49): the raw values the five reads
return. `powerMilliwatt = none` models the inner `NVMLError` of the power
read (power then falls back to `0.0`). -/
structure DeviceRead where
  name : String
  util : Int
  memUsedBytes : Nat
  memTotalBytes : Nat
  temp : Int
  powerMilliwatt : Option Rat
  deriving Repr, DecidableEq

/-- The per-device loop of `gpu.get_gpu_stats` (gpu.py lines 37–65).
`read idx = none` models an `NVMLError` from one of the per-device reads,
upon which the `except ... continue` skips that device. -/
def mkLiveStat (idx : Nat) (r : DeviceRead) : GPUStats :=
  { index := Int.ofNat idx
    name := r.name
    util := r.util
    mem_used := Int.ofNat (r.memUsedBytes / 1024 / 1024)
    mem_total := Int.ofNat (r.memTotalBytes / 1024 / 1024)
    temp := r.temp
    power := match r.powerMilliwatt with
      | some p => p / 1000
      | none => 0 }

/-- The loop of `gpu.get_gpu_stats` over device indices `0 .. count-1`,
appending `mkLiveStat idx` for each successful read and skipping failed
ones. -/
def get_gpu_stats_live (count : Nat) (read : Nat → Option DeviceRead) : List GPUStats :=
  (List.range count).filterMap fun idx => (read idx).map (mkLiveStat idx)

/-- `gpu.get_gpu_stats` (gpu.py lines 14–65).  `pynvmlNone` models
`pynvml is None`, `initOk` the `nvmlInit()` try, `countRes = none` an
`NVMLError` from `nvmlDeviceGetCount()` (which returns the empty list
accumulated so far). -/
def get_gpu_stats (demoMode : Bool) (rng : Nat → Nat) (pynvmlNone : Bool)
    (initOk : Bool) (countRes : Option Nat) (read : Nat → Option DeviceRead) :
    List GPUStats :=
  if demoMode then get_demo_gpu_stats rng
  else if pynvmlNone then []
  else if !initOk then []
  else match countRes with
    | none => []
    | some count => get_gpu_stats_live count read

/-- The observable behaviour of one psutil process for the probes
`triton_util.is_triton_process` performs.  A `none` field means that call
raises `psutil.AccessDenied` or `psutil.NoSuchProcess`. -/
structure ProcProbe where
  name : Option String
  exe : Option String
  environKeys : Option (List String)
  deriving Repr, DecidableEq

/-- `triton_util.is_triton_process` (triton_util.py lines 15–45).
In demo mode the answer is `pid % 5 == 0`.  Live: `p.name()` and `p.exe()`
are evaluated first — a failure of either is caught by the *outer* handler
and yields `false`; only a failure of `p.environ()` is caught by the inner
handler and treated as "no match". -/
def is_triton_process (demoMode : Bool) (pid : Int) (p : ProcProbe) : Bool :=
  if demoMode then pid % 5 == 0
  else
    match p.name with
    | none => false
    | some rawName =>
      match p.exe with
      | none => false
      | some rawExe =>
        let name := pyLower rawName
        let exe := if rawExe == "" then "" else pyLower rawExe
        if pyIn "triton" name || pyIn "tritonserver" exe then true
        else
          match p.environKeys with
          | none => false
          | some env => env.contains "TRITON_MODEL_REPOSITORY"

/-- Outcome of the container check performed for one pid inside
`process.get_gpu_processes` (process.py lines 50–64), with a flag recording
whether `docker_util.get_container_info` was invoked. -/
structure ContainerCheck where
  is_container : Bool
  container_name : String
  container_ports : String
  resolverCalled : Bool
  deriving Repr, DecidableEq

/-- The marker test of process.py lines 58–60: `any(term in data for term in
("docker", "kubepols", "containerd", "lxc"))`. -/
def cgroup_is_container (data : String) : Bool :=
  ["docker", "kubepols", "containerd", "lxc"].any fun term => pyIn term data

/-- The container-detection block of `process.get_gpu_processes`
(process.py lines 50–64) for one pid.  `cgroupData = none` models a failure
to open/read `/proc/<pid>/cgroup` (the `except Exception: pass` leaves all
three variables at their defaults); `resolve` is the result
`docker_util.get_container_info(pid)` would produce. -/
def check_container (cgroupData : Option String) (resolve : String × String) :
    ContainerCheck :=
  match cgroupData with
  | none => { is_container := false, container_name := "", container_ports := "",
              resolverCalled := false }
  | some data =>
    if cgroup_is_container data then
      { is_container := true, container_name := resolve.1,
        container_ports := resolve.2, resolverCalled := true }
    else
      { is_container := false, container_name := "", container_ports := "",
        resolverCalled := false }

/-- Result dict of `triton_util.get_triton_info` / `demo.get_demo_triton_info`. -/
structure TritonInfo where
  is_triton : Bool
  server_url : Option String
  models : List String
  error : Option String
  deriving Repr, DecidableEq

/-- `demo.get_demo_triton_info` (demo.py lines 133–193); the fake model list
is abstracted to its names, which no claim constrains further. -/
def get_demo_triton_info (pid : Int) (container_ports : String) : TritonInfo :=
  if pid % 5 != 0 then
    { is_triton := false
      server_url := none
      models := []
      error := some "Process is not running Triton" }
  else
    { is_triton := true
      server_url := some "http://localhost:8000"
      models := ["resnet50", "bert-base", "yolov8", "gpt-neo-small"]
      error := none }

/-- Abstract docker client handles (`docker.from_env()` results); only
identity matters to the claims. -/
structure DockerClient where
  id : Nat
  deriving Repr, DecidableEq

/-- `docker_util.get_docker_client` (docker_util.py lines 22–31) as a step
on the module-global `_docker_client` (`none` = Python `None`).
`fromEnv` is what `docker.from_env()` would return on this call (`none` =
it raises).  Result: (returned client, whether `docker.from_env()` was
attempted, new global state). -/
def get_docker_client (fromEnv : Option DockerClient) (st : Option DockerClient) :
    Option DockerClient × Bool × Option DockerClient :=
  match st with
  | some c => (some c, false, some c)
  | none =>
    match fromEnv with
    | some c => (some c, true, some c)
    | none => (none, true, none)

/-- `docker_util.get_container_info` (docker_util.py lines 34–63) as a step
on the same global state.  The container scan (lines 43–59) is abstracted
by `lookup`: what iterating `client.containers.list()` would yield for this
pid (`none` = no container matched, or the scan raised — both fall through
to the final `return "", ""`).  Result: ((name, ports), whether
`docker.from_env()` was attempted, new global state). -/
def get_container_info (fromEnv : Option DockerClient)
    (lookup : DockerClient → Option (String × String))
    (st : Option DockerClient) :
    (String × String) × Bool × Option DockerClient :=
  match get_docker_client fromEnv st with
  | (none, attempted, st') => (("", ""), attempted, st')
  | (some c, attempted, st') =>
    match lookup c with
    | some info => (info, attempted, st')
    | none => (("", ""), attempted, st')

/-- Python `int(s)` on a decimal literal: optional surrounding whitespace,
optional sign, then digits possibly separated by single underscores.
`none` models `ValueError`. -/
def pyDigitsVal : List Char → Nat → Option Nat
  | [], acc => some acc
  | ['_'], _ => none
  | '_' :: c :: rest, acc =>
    if c.isDigit then pyDigitsVal rest (acc * 10 + (c.toNat - 48)) else none
  | c :: rest, acc =>
    if c.isDigit then pyDigitsVal rest (acc * 10 + (c.toNat - 48)) else none

/-- Python `int(s)` for strings (decimal). -/
def pyParseInt (s : String) : Option Int :=
  match s.trim.toList with
  | [] => none
  | '+' :: rest =>
    match rest with
    | c :: _ => if c.isDigit then (pyDigitsVal rest 0).map Int.ofNat else none
    | [] => none
  | '-' :: rest =>
    match rest with
    | c :: _ => if c.isDigit then (pyDigitsVal rest 0).map fun n => -(Int.ofNat n)
                else none
    | [] => none
  | c :: rest =>
    if c.isDigit then (pyDigitsVal (c :: rest) 0).map Int.ofNat else none

/-- `triton_util._is_port_open` (triton_util.py lines 80–89).
`connectRes` is what `sock.connect_ex((host, port))` returns on this call
(`none` = the socket setup or connect raised, caught by `except Exception`). -/
def _is_port_open (connectRes : Option Int) : Bool :=
  match connectRes with
  | some r => r == 0
  | none => false

/-- The host-side ports `triton_util.find_triton_server_url` extracts from a
`container_ports` string (triton_util.py lines 62–66): split on `,`, take
the text before `→`, strip, parse as int; malformed parts are skipped. -/
def parsedHostPorts (cp : String) : List Int :=
  (cp.splitOn ",").filterMap fun part =>
    pyParseInt (((part.splitOn "→").headD "").trim)

/-- The container-port phase of `triton_util.find_triton_server_url`
(triton_util.py lines 60–70): when a non-empty `container_ports` string is
given, split on `,`, parse the host port before `→` of each part (skipping
malformed parts, the `except (ValueError, IndexError)`), and return the URL
of the first parsed port that answers. -/
def find_from_container (portOpen : Int → Bool)
    (container_ports : Option String) : Option String :=
  match container_ports with
  | none => none
  | some cp =>
    if cp == "" then none
    else
      (cp.splitOn ",").findSome? fun part =>
        match pyParseInt (((part.splitOn "→").headD "").trim) with
        | none => none
        | some host_port =>
          if portOpen host_port then
            some ("http://localhost:" ++ toString host_port)
          else none

/-- The standard-port phase of `triton_util.find_triton_server_url`
(triton_util.py lines 57 and 72–75): try 8000, 8001, 8002 in order. -/
def find_standard (portOpen : Int → Bool) : Option String :=
  ([8000, 8001, 8002] : List Int).findSome? fun port =>
    if portOpen port then some ("http://localhost:" ++ toString port)
    else none

/-- `triton_util.find_triton_server_url` (triton_util.py lines 48–77).
`portOpen p` is the value `_is_port_open("localhost", p)` returns for port
`p` during this call. -/
def find_triton_server_url (portOpen : Int → Bool)
    (container_ports : Option String) : Option String :=
  match find_from_container portOpen container_ports with
  | some url => some url
  | none => find_standard portOpen

/-- Result of `triton_util.get_triton_models` (triton_util.py lines
92–163), abstracted to the fields `get_triton_info` copies out. -/
structure ModelsResult where
  models : List String
  error : Option String
  deriving Repr, DecidableEq

/-- `triton_util.get_triton_info` (triton_util.py lines 166–203), live
branch parametrised by the process probe, the port oracle and the server
query.  `serverQuery url` is what `get_triton_models(url)` would return. -/
def get_triton_info (demoMode : Bool) (pid : Int) (p : ProcProbe)
    (portOpen : Int → Bool) (serverQuery : String → ModelsResult)
    (container_ports : Option String) : TritonInfo :=
  if demoMode then
    get_demo_triton_info pid (container_ports.getD "")
  else if !(is_triton_process demoMode pid p) then
    { is_triton := false, server_url := none, models := [],
      error := some "Process is not running Triton" }
  else
    match find_triton_server_url portOpen container_ports with
    | none =>
      { is_triton := true, server_url := none, models := [],
        error := some "Could not find Triton server URL" }
    | some server_url =>
      let mi := serverQuery server_url
      { is_triton := true, server_url := some server_url,
        models := mi.models, error := mi.error }

/-- Cursor restoration shared by `ui.GPUApp._refresh` (ui.py lines 185–190)
and `ui.GPUApp._update_process_table` (ui.py lines 221–225): after the
table is cleared and refilled to `rowCount` rows, the remembered cursor row
`old` is re-applied via `move_cursor` only if `0 <= old < rowCount`;
otherwise no move happens and the cleared table keeps no selection. -/
def reapply_cursor (old : Int) (rowCount : Nat) : Option Int :=
  if 0 ≤ old ∧ old < Int.ofNat rowCount then some old else none

/-- The selection part of `ui.GPUApp._refresh` (ui.py lines 136–192): with
`stats` the freshly fetched list, the GPU table is cleared; the empty case
shows a placeholder row and restores nothing, else one row per stat is
added and the old cursor re-applied if still in range. -/
def refresh_gpu_cursor (stats : List GPUStats) (old_cursor : Int) : Option Int :=
  if stats.isEmpty then none
  else reapply_cursor old_cursor stats.length

/-- The selection part of `ui.GPUApp._update_process_table` (ui.py lines
194–225): the process table is cleared; an empty process list gets a
placeholder row and no restore, else one row per process is added and the
old cursor re-applied if still in range. -/
def update_proc_cursor (procs : List GPUProcess) (old_proc_cursor : Int) :
    Option Int :=
  if procs.isEmpty then none
  else reapply_cursor old_proc_cursor procs.length

/-! ## Helper lemmas -/

/-- `pyRandint` lands in `[a, b]` whenever `a ≤ b`. -/
theorem pyRandint_bounds (r : Nat) {a b : Int} (hab : a ≤ b) :
    a ≤ pyRandint r a b ∧ pyRandint r a b ≤ b := by
  unfold pyRandint
  have hcast : ((b - a + 1).toNat : Int) = b - a + 1 := Int.toNat_of_nonneg (by omega)
  have hlt : r % (b - a + 1).toNat < (b - a + 1).toNat := Nat.mod_lt _ (by omega)
  have h1 : Int.ofNat (r % (b - a + 1).toNat) < ((b - a + 1).toNat : Int) :=
    Int.ofNat_lt.mpr hlt
  have h0 : (0 : Int) ≤ Int.ofNat (r % (b - a + 1).toNat) := Int.ofNat_nonneg _
  omega

/-- The GPU indices produced by the live loop are the successful device
indices, in enumeration order. -/
theorem get_gpu_stats_live_indices (count : Nat) (read : Nat → Option DeviceRead) :
    (get_gpu_stats_live count read).map GPUStats.index =
      ((List.range count).filter fun i => (read i).isSome).map Int.ofNat := by
  unfold get_gpu_stats_live
  induction List.range count with
  | nil => rfl
  | cons a l ih =>
    cases h : read a with
    | none => simp [List.filterMap_cons, List.filter_cons, h, ih]
    | some r => simp [List.filterMap_cons, List.filter_cons, h, ih, mkLiveStat]

/-! ## Claim C1 — density of GPU index values -/

/-- A live read map where device 0 fails and device 1 succeeds. -/
def c1read : Nat → Option DeviceRead := fun n =>
  if n == 1 then
    some { name := "GPU1", util := 5, memUsedBytes := 1048576,
           memTotalBytes := 2097152, temp := 40, powerMilliwatt := none }
  else none

/-- C1 counterexample: with two NVML devices of which device 0 fails, one
record is returned and its index is 1, not the dense value 0 the claim
demands (`0..N-1` for `N = 1` is `[0]`). -/
theorem gtop_C1_counterexample :
    (get_gpu_stats false (fun _ => 0) false true (some 2) c1read).length = 1 ∧
    (get_gpu_stats false (fun _ => 0) false true (some 2) c1read).map GPUStats.index = [1] ∧
    (get_gpu_stats false (fun _ => 0) false true (some 2) c1read).map GPUStats.index ≠
      (List.range
        (get_gpu_stats false (fun _ => 0) false true (some 2) c1read).length).map
        Int.ofNat := by
  refine ⟨rfl, rfl, ?_⟩
  decide

/-- C1 (amended): within one poll cycle the index fields are strictly
increasing device indices, each below the device count; they are exactly
`0..N-1` in demo mode (`[0,1,2,3]`) and in live mode whenever every device
read up to `count` succeeds — but a failing device leaves a gap rather
than being renumbered. -/
theorem gtop_C1_indices (rng : Nat → Nat) (count : Nat)
    (read : Nat → Option DeviceRead) :
    (get_demo_gpu_stats rng).map GPUStats.index = [0, 1, 2, 3] ∧
    List.Pairwise (· < ·) ((get_gpu_stats_live count read).map GPUStats.index) ∧
    (∀ g ∈ get_gpu_stats_live count read, g.index < Int.ofNat count) ∧
    ((∀ i, i < count → (read i).isSome) →
      (get_gpu_stats_live count read).map GPUStats.index =
        (List.range count).map Int.ofNat) := by
  refine ⟨?_, ?_, ?_, ?_⟩
  · simp [get_demo_gpu_stats, List.range_succ]
  · rw [get_gpu_stats_live_indices]
    refine List.pairwise_map.mpr ?_
    refine List.Pairwise.imp ?_
      (List.Pairwise.sublist (List.filter_sublist _) (List.pairwise_lt_range count))
    intro a b hab
    exact Int.ofNat_lt.mpr hab
  · intro g hg
    unfold get_gpu_stats_live at hg
    rcases List.mem_filterMap.mp hg with ⟨i, hi, hread⟩
    rcases Option.map_eq_some'.mp hread with ⟨r, _, hgr⟩
    have hidx : g.index = Int.ofNat i := by rw [← hgr]; rfl
    rw [hidx]
    exact Int.ofNat_lt.mpr (List.mem_range.mp hi)
  · intro hall
    rw [get_gpu_stats_live_indices]
    have : ((List.range count).filter fun i => (read i).isSome) = List.range count :=
      List.filter_eq_self.mpr fun a ha => by
        have := hall a (List.mem_range.mp ha)
        simpa using this
    rw [this]

/-- C1 witness: the amended theorem applied at demo rng `0`, two devices,
both reads succeeding. -/
theorem gtop_C1_indices_witness :
    (get_demo_gpu_stats (fun _ => 0)).map GPUStats.index = [0, 1, 2, 3] ∧
    (get_gpu_stats_live 2 (fun _ =>
        some { name := "G", util := 0, memUsedBytes := 0, memTotalBytes := 0,
               temp := 0, powerMilliwatt := none })).map GPUStats.index =
      (List.range 2).map Int.ofNat := by
  have h := gtop_C1_indices (fun _ => 0) 2 (fun _ =>
    some { name := "G", util := 0, memUsedBytes := 0, memTotalBytes := 0,
           temp := 0, powerMilliwatt := none })
  exact ⟨h.1, h.2.2.2 fun i _ => rfl⟩

/-! ## Claim C8 — demo GPU record ranges -/

/-- C8: demo mode yields exactly 4 records, indices 0..3, with utilization
in [0,100], temperature in [20,90], and `mem_used ≤ mem_total = 16384`,
for every state of the RNG. -/
theorem gtop_C8_demo_stats (rng : Nat → Nat) :
    (get_demo_gpu_stats rng).length = 4 ∧
    (get_demo_gpu_stats rng).map GPUStats.index = [0, 1, 2, 3] ∧
    ∀ g ∈ get_demo_gpu_stats rng,
      0 ≤ g.util ∧ g.util ≤ 100 ∧ 20 ≤ g.temp ∧ g.temp ≤ 90 ∧
      g.mem_used ≤ g.mem_total ∧ g.mem_total = 16384 := by
  refine ⟨rfl, ?_, ?_⟩
  · simp [get_demo_gpu_stats, List.range_succ]
  · intro g hg
    simp only [get_demo_gpu_stats, List.mem_map, List.mem_range] at hg
    rcases hg with ⟨idx, _, rfl⟩
    have hu := @pyRandint_bounds (rng (4 * idx)) 0 100 (by norm_num)
    have hm := @pyRandint_bounds (rng (4 * idx + 1)) 0 16384 (by norm_num)
    have ht := @pyRandint_bounds (rng (4 * idx + 2)) 20 90 (by norm_num)
    exact ⟨hu.1, hu.2, ht.1, ht.2, hm.2, rfl⟩

/-- The first record of `get_demo_gpu_stats` under the all-zero RNG stream. -/
def demoStat0 : GPUStats :=
  { index := 0, name := "DemoGPU0", util := pyRandint 0 0 100,
    mem_used := pyRandint 0 0 16384, mem_total := 16384,
    temp := pyRandint 0 20 90, power := pyUniform 0 10 250 }

/-- C8 witness: the bounds of `gtop_C8_demo_stats` instantiated at the
first demo record under the all-zero RNG stream. -/
theorem gtop_C8_demo_stats_witness :
    0 ≤ demoStat0.util ∧ demoStat0.util ≤ 100 ∧ 20 ≤ demoStat0.temp ∧
    demoStat0.temp ≤ 90 ∧ demoStat0.mem_used ≤ demoStat0.mem_total ∧
    demoStat0.mem_total = 16384 :=
  (gtop_C8_demo_stats fun _ => 0).2.2 demoStat0 (List.mem_map.mpr ⟨0, by decide, rfl⟩)

/-! ## Claim C10 — demo process pid structure -/

/-- C10: `get_demo_gpu_processes g` yields exactly ten records with pids
`1000 + 10*g + i` for `i = 0..9` in increasing order, and the pid sets of
distinct GPU indices are disjoint. -/
theorem gtop_C10_demo_processes (rng rng' : Nat → Nat) (g g' : Int) :
    (get_demo_gpu_processes rng g).length = 10 ∧
    (get_demo_gpu_processes rng g).map GPUProcess.pid =
      (List.range 10).map (fun i => 1000 + g * 10 + Int.ofNat i) ∧
    List.Pairwise (· < ·) ((get_demo_gpu_processes rng g).map GPUProcess.pid) ∧
    (g ≠ g' →
      ∀ p ∈ get_demo_gpu_processes rng g, ∀ q ∈ get_demo_gpu_processes rng' g',
        p.pid ≠ q.pid) := by
  refine ⟨rfl, rfl, ?_, ?_⟩
  · rw [show (get_demo_gpu_processes rng g).map GPUProcess.pid =
        (List.range 10).map (fun i => 1000 + g * 10 + Int.ofNat i) from rfl]
    refine List.pairwise_map.mpr ?_
    refine List.Pairwise.imp ?_ (List.pairwise_lt_range 10)
    intro a b hab
    exact add_lt_add_left (Int.ofNat_lt.mpr hab) _
  · intro hne p hp q hq heq
    simp only [get_demo_gpu_processes, List.mem_map, List.mem_range] at hp hq
    rcases hp with ⟨i, hi, rfl⟩
    rcases hq with ⟨j, hj, rfl⟩
    have hpi : (1000 + g * 10 + Int.ofNat i) = 1000 + g' * 10 + Int.ofNat j := heq
    have hi0 : (0 : Int) ≤ Int.ofNat i := Int.ofNat_nonneg _
    have hj0 : (0 : Int) ≤ Int.ofNat j := Int.ofNat_nonneg _
    have hi1 : Int.ofNat i < (10 : Int) := Int.ofNat_lt.mpr hi
    have hj1 : Int.ofNat j < (10 : Int) := Int.ofNat_lt.mpr hj
    exact hne (by omega)

/-- Demo process `i = 0` of GPU 0 under the all-zero RNG stream. -/
def demoProcA : GPUProcess :=
  { gpu_index := 0, pid := 1000, name := "proc1000",
    cmdline := "/usr/bin/proc1000 --arg", mem_mb := pyUniform 0 10 2048,
    container := true, container_name := "demo-container-1000",
    container_ports := "8000→8000, 5432→5432" }

/-- Demo process `i = 0` of GPU 1 under the all-zero RNG stream. -/
def demoProcB : GPUProcess :=
  { gpu_index := 1, pid := 1010, name := "proc1010",
    cmdline := "/usr/bin/proc1010 --arg", mem_mb := pyUniform 0 10 2048,
    container := true, container_name := "demo-container-1010",
    container_ports := "8000→8000, 5432→5432" }

/-- C10 witness: pid disjointness across GPUs 0 and 1, instantiated at the
first demo process of each. -/
theorem gtop_C10_demo_processes_witness : demoProcA.pid ≠ demoProcB.pid :=
  (gtop_C10_demo_processes (fun _ => 0) (fun _ => 0) 0 1).2.2.2 (by decide)
    demoProcA (List.mem_map.mpr ⟨0, by decide, rfl⟩)
    demoProcB (List.mem_map.mpr ⟨0, by decide, rfl⟩)

/-! ## Claim C7 — demo-mode inference-server predicate agreement -/

/-- C7: in demo mode, `is_triton_process pid = (pid % 5 == 0)` regardless
of the process probe, and the same predicate yields the `is_triton` flag of
`get_demo_process_details` and the `is_triton` field of
`get_demo_triton_info`. -/
theorem gtop_C7_demo_triton_agreement (pid : Int) (p : ProcProbe) (cp : String) :
    is_triton_process true pid p = (pid % 5 == 0) ∧
    (get_demo_process_details pid).is_triton = (pid % 5 == 0) ∧
    (get_demo_triton_info pid cp).is_triton = (pid % 5 == 0) := by
  refine ⟨rfl, rfl, ?_⟩
  cases h : pid % 5 == 0 <;> simp [get_demo_triton_info, bne, h]

/-! ## Claim C2 — container-runtime markers -/

/-- C2 counterexample: control-group text containing `kubernetes` (and none
of the code's markers) is NOT flagged, while text containing the code's
actual marker `kubepols` is — the marker list in the code is
`docker`/`kubepols`/`containerd`/`lxc`, not `kubernetes`. -/
theorem gtop_C2_counterexample :
    pyIn "kubernetes" "12:memory:/kubernetes/pod42" = true ∧
    pyIn "docker" "12:memory:/kubernetes/pod42" = false ∧
    pyIn "containerd" "12:memory:/kubernetes/pod42" = false ∧
    pyIn "lxc" "12:memory:/kubernetes/pod42" = false ∧
    (check_container (some "12:memory:/kubernetes/pod42") ("n", "p")).is_container
      = false ∧
    pyIn "kubernetes" "12:memory:/kubepols/pod7" = false ∧
    (check_container (some "12:memory:/kubepols/pod7") ("n", "p")).is_container
      = true := by
  decide

/-- C2 (amended): a process is flagged containerized exactly when its
readable control-group text contains one of the code's marker substrings
`docker`, `kubepols`, `containerd`, `lxc`; only a positive match invokes
the container resolver, and an unflagged process carries empty
container name/ports. -/
theorem gtop_C2_markers (data : String) (cgroupData : Option String)
    (resolve : String × String) :
    ((check_container (some data) resolve).is_container = true ↔
      (pyIn "docker" data = true ∨ pyIn "kubepols" data = true ∨
       pyIn "containerd" data = true ∨ pyIn "lxc" data = true)) ∧
    (check_container cgroupData resolve).resolverCalled =
      (check_container cgroupData resolve).is_container ∧
    ((check_container cgroupData resolve).is_container = false →
      (check_container cgroupData resolve).container_name = "" ∧
      (check_container cgroupData resolve).container_ports = "") := by
  have hc : ∀ d : String, cgroup_is_container d = true ↔
      (pyIn "docker" d = true ∨ pyIn "kubepols" d = true ∨
       pyIn "containerd" d = true ∨ pyIn "lxc" d = true) := by
    intro d
    simp [cgroup_is_container]
  have hproj : ∀ d (r : String × String),
      (check_container (some d) r).is_container = cgroup_is_container d := by
    intro d r
    unfold check_container
    cases hcg : cgroup_is_container d <;> simp [hcg]
  refine ⟨?_, ?_, ?_⟩
  · rw [hproj data resolve]
    exact hc data
  · cases cgroupData with
    | none => rfl
    | some d =>
      by_cases h : cgroup_is_container d = true
      · simp [check_container, h]
      · simp only [Bool.not_eq_true] at h
        simp [check_container, h]
  · cases cgroupData with
    | none => exact fun _ => ⟨rfl, rfl⟩
    | some d =>
      by_cases h : cgroup_is_container d = true
      · simp [check_container, h]
      · simp only [Bool.not_eq_true] at h
        simp [check_container, h]

/-- C2 witness: the amended theorem instantiated at a docker cgroup line
and at an unreadable cgroup file. -/
theorem gtop_C2_markers_witness :
    ((check_container (some "0::/docker/abc") ("web", "80→80")).is_container = true ↔
      (pyIn "docker" "0::/docker/abc" = true ∨
       pyIn "kubepols" "0::/docker/abc" = true ∨
       pyIn "containerd" "0::/docker/abc" = true ∨
       pyIn "lxc" "0::/docker/abc" = true)) ∧
    (check_container none ("web", "80→80")).container_name = "" ∧
    (check_container none ("web", "80→80")).container_ports = "" := by
  have h := gtop_C2_markers "0::/docker/abc" none ("web", "80→80")
  exact ⟨h.1, h.2.2 rfl⟩

/-! ## Claim C3 — docker handle caching -/

/-- `get_container_info` attempts `docker.from_env()` exactly when the
cached global client is empty. -/
theorem get_container_info_attempts_iff_uncached (fromEnv : Option DockerClient)
    (lookup : DockerClient → Option (String × String)) (st : Option DockerClient) :
    (get_container_info fromEnv lookup st).2.1 = st.isNone := by
  cases st with
  | some c =>
    cases h : lookup c <;> simp [get_container_info, get_docker_client, h]
  | none =>
    cases fromEnv with
    | none => rfl
    | some c =>
      cases h : lookup c <;> simp [get_container_info, get_docker_client, h]

/-- The cached client after a `get_container_info` call: an existing cache
is kept, an empty cache is filled with whatever `docker.from_env()`
returned (still empty on failure). -/
theorem get_container_info_state (fromEnv : Option DockerClient)
    (lookup : DockerClient → Option (String × String)) (st : Option DockerClient) :
    (get_container_info fromEnv lookup st).2.2 =
      (match st with
        | some c => some c
        | none => fromEnv) := by
  cases st with
  | some c =>
    cases h : lookup c <;> simp [get_container_info, get_docker_client, h]
  | none =>
    cases fromEnv with
    | none => rfl
    | some c =>
      cases h : lookup c <;> simp [get_container_info, get_docker_client, h]

/-- C3 counterexample: after a call in which `docker.from_env()` failed,
the next call re-attempts acquisition — and can succeed and return real
container info, contradicting "returns `("", "")` permanently without
re-attempting". -/
theorem gtop_C3_counterexample :
    (get_container_info none (fun _ => none) none).1 = ("", "") ∧
    (get_container_info none (fun _ => none) none).2.2 = none ∧
    (get_container_info (some ⟨0⟩) (fun _ => some ("web", "80→80"))
        (get_container_info none (fun _ => none) none).2.2).2.1 = true ∧
    (get_container_info (some ⟨0⟩) (fun _ => some ("web", "80→80"))
        (get_container_info none (fun _ => none) none).2.2).1 = ("web", "80→80") :=
  ⟨rfl, rfl, rfl, rfl⟩

/-- C3 (amended): the docker handle is acquired lazily on first use; a
successful acquisition is cached and every later call reuses it without
re-attempting; a failed acquisition makes the call return `("", "")` but
caches nothing, so the next call attempts `docker.from_env()` again. -/
theorem gtop_C3_docker_cache (fromEnv fromEnv' : Option DockerClient)
    (lookup lookup' : DockerClient → Option (String × String)) (c : DockerClient) :
    (get_container_info fromEnv lookup (some c)).2.1 = false ∧
    (get_container_info fromEnv lookup (some c)).2.2 = some c ∧
    (get_container_info (some c) lookup none).2.1 = true ∧
    (get_container_info (some c) lookup none).2.2 = some c ∧
    (get_container_info none lookup none).1 = ("", "") ∧
    (get_container_info none lookup none).2.2 = none ∧
    (get_container_info fromEnv' lookup'
        (get_container_info none lookup none).2.2).2.1 = true := by
  refine ⟨?_, ?_, ?_, ?_, rfl, rfl, ?_⟩
  · exact get_container_info_attempts_iff_uncached fromEnv lookup (some c)
  · exact get_container_info_state fromEnv lookup (some c)
  · exact get_container_info_attempts_iff_uncached (some c) lookup none
  · exact get_container_info_state (some c) lookup none
  · exact get_container_info_attempts_iff_uncached fromEnv' lookup' none

/-! ## Claim C4 — inference-server probe ordering -/

/-- C4 counterexample: a process whose name contains `triton` but whose
executable-path probe fails (`p.exe()` raises) is reported NOT to be an
inference server: the exe failure short-circuits the positive name rule. -/
theorem gtop_C4_counterexample :
    pyIn "triton" (pyLower "tritonserver") = true ∧
    is_triton_process false 42 ⟨some "tritonserver", none, some []⟩ = false := by
  exact ⟨by decide, rfl⟩

/-- C4 (amended): with the name and executable probes both readable, a
name match wins regardless of the environment probe (even if it fails,
which counts as "no match" for the environment rule only); but a failing
name or executable probe makes the whole detection return `false`, even
when the name matches. -/
theorem gtop_C4_probe_order (pid : Int) (nm exe : String)
    (envRes : Option (List String)) :
    (pyIn "triton" (pyLower nm) = true →
      is_triton_process false pid ⟨some nm, some exe, envRes⟩ = true) ∧
    (pyIn "triton" (pyLower nm) = false →
      pyIn "tritonserver" (if exe == "" then "" else pyLower exe) = false →
      is_triton_process false pid ⟨some nm, some exe, none⟩ = false) ∧
    is_triton_process false pid ⟨some nm, none, envRes⟩ = false ∧
    is_triton_process false pid ⟨none, some exe, envRes⟩ = false := by
  refine ⟨?_, ?_, rfl, rfl⟩
  · intro h
    simp [is_triton_process, h]
  · intro h1 h2
    by_cases hexe : exe = ""
    · subst hexe
      simp only [beq_self_eq_true, if_true] at h2
      simp [is_triton_process, h1, h2]
    · rw [if_neg (by simpa using hexe)] at h2
      simp [is_triton_process, h1, h2, hexe]

/-- C4 witness: the amended theorem at a name-matching process with failing
environment probe, and a non-matching one. -/
theorem gtop_C4_probe_order_witness :
    is_triton_process false 42 ⟨some "tritonserver", some "", none⟩ = true ∧
    is_triton_process false 43 ⟨some "bash", some "", none⟩ = false :=
  ⟨(gtop_C4_probe_order 42 "tritonserver" "" none).1 (by decide),
   (gtop_C4_probe_order 43 "bash" "" none).2.1 (by decide) (by decide)⟩

/-! ## Claim C5 — detection vs reachability -/

/-- When every port probe answers closed, `find_triton_server_url` finds
nothing: the parsed container host ports and the standard ports 8000, 8001,
8002 all fail. -/
theorem find_url_none_of_closed (portOpen : Int → Bool)
    (h : ∀ q, portOpen q = false) (cp : Option String) :
    find_triton_server_url portOpen cp = none := by
  have hcont : find_from_container portOpen cp = none := by
    unfold find_from_container
    cases cp with
    | none => rfl
    | some s =>
      cases hs : (s == "") with
      | true => simp [hs]
      | false =>
        simp only [hs, Bool.false_eq_true, if_false]
        refine List.findSome?_eq_none_iff.mpr fun part _ => ?_
        cases hp : pyParseInt (((part.splitOn "→").headD "").trim) with
        | none => rfl
        | some q => simp [h q]
  have hstd : find_standard portOpen = none := by
    unfold find_standard
    refine List.findSome?_eq_none_iff.mpr fun x _ => ?_
    simp [h x]
  unfold find_triton_server_url
  rw [hcont]
  exact hstd

/-- C5 counterexample: for a detected inference server with no answering
port, the error field is `"Could not find Triton server URL"`, not the
claim's literal `"could not find server URL"`. -/
theorem gtop_C5_counterexample :
    (get_triton_info false 42 ⟨some "tritonserver", some "", none⟩
        (fun _ => false) (fun _ => ⟨[], none⟩) none).error =
      some "Could not find Triton server URL" ∧
    (get_triton_info false 42 ⟨some "tritonserver", some "", none⟩
        (fun _ => false) (fun _ => ⟨[], none⟩) none).error ≠
      some "could not find server URL" := by
  constructor
  · rfl
  · decide

/-- C5 (amended): for every pid detected as an inference server for which
no probed port answers, `get_triton_info` reports `is_triton = true`, no
server URL, no models, and the error `"Could not find Triton server URL"`
— detection and reachability are distinct signals. -/
theorem gtop_C5_no_url (pid : Int) (p : ProcProbe) (portOpen : Int → Bool)
    (serverQuery : String → ModelsResult) (cp : Option String)
    (hT : is_triton_process false pid p = true)
    (hP : ∀ q, portOpen q = false) :
    get_triton_info false pid p portOpen serverQuery cp =
      { is_triton := true, server_url := none, models := [],
        error := some "Could not find Triton server URL" } := by
  simp [get_triton_info, hT, find_url_none_of_closed portOpen hP cp]

/-- C5 witness: the amended theorem applied at a name-matching process and
the all-closed port oracle. -/
theorem gtop_C5_no_url_witness :
    get_triton_info false 7 ⟨some "tritonserver", some "", none⟩
        (fun _ => false) (fun _ => ⟨[], none⟩) (some "8000→8000") =
      { is_triton := true, server_url := none, models := [],
        error := some "Could not find Triton server URL" } :=
  gtop_C5_no_url 7 ⟨some "tritonserver", some "", none⟩ (fun _ => false)
    (fun _ => ⟨[], none⟩) (some "8000→8000") (by decide) (fun _ => rfl)

/-! ## Claim C6 — selection continuity across refresh -/

/-- For a non-negative remembered cursor, re-applying it to a table of `n`
rows keeps it iff it is below `n`. -/
theorem reapply_cursor_of_nonneg (k : Int) (n : Nat) (hk : 0 ≤ k) :
    reapply_cursor k n = if k < Int.ofNat n then some k else none := by
  unfold reapply_cursor
  by_cases h : k < Int.ofNat n
  · rw [if_pos ⟨hk, h⟩, if_pos h]
  · rw [if_neg fun hc => h hc.2, if_neg h]

/-- C6: for a prior selected row index `k ≥ 0` and a refreshed list of
length `m`, the reapplied selection is `k` when `k < m` and "no selection"
otherwise, in both the GPU table and the process table. -/
theorem gtop_C6_selection (stats : List GPUStats) (procs : List GPUProcess)
    (k kp : Int) (hk : 0 ≤ k) (hkp : 0 ≤ kp) :
    refresh_gpu_cursor stats k =
      (if k < Int.ofNat stats.length then some k else none) ∧
    update_proc_cursor procs kp =
      (if kp < Int.ofNat procs.length then some kp else none) := by
  constructor
  · unfold refresh_gpu_cursor
    by_cases he : stats.isEmpty
    · have h0 : stats.length = 0 := List.isEmpty_iff_length_eq_zero.mp he
      rw [if_pos he, h0, if_neg (show ¬k < Int.ofNat 0 from not_lt.mpr hk)]
    · rw [if_neg he, reapply_cursor_of_nonneg k stats.length hk]
  · unfold update_proc_cursor
    by_cases he : procs.isEmpty
    · have h0 : procs.length = 0 := List.isEmpty_iff_length_eq_zero.mp he
      rw [if_pos he, h0, if_neg (show ¬kp < Int.ofNat 0 from not_lt.mpr hkp)]
    · rw [if_neg he, reapply_cursor_of_nonneg kp procs.length hkp]

/-- C6 witness: an in-range GPU cursor survives, an out-of-range process
cursor becomes "no selection". -/
theorem gtop_C6_selection_witness :
    refresh_gpu_cursor [demoStat0] 0 =
      (if (0 : Int) < Int.ofNat 1 then some 0 else none) ∧
    update_proc_cursor [demoProcA] 5 =
      (if (5 : Int) < Int.ofNat 1 then some 5 else none) :=
  gtop_C6_selection [demoStat0] [demoProcA] 0 5 (by decide) (by decide)

/-! ## Claim C9 — URL probing is total and well-shaped -/

/-- The shape property of a `find_triton_server_url` result: either no URL,
or `http://localhost:<p>` for a port `p` that answered and is a parsed
container host port or one of the standard ports 8000/8001/8002. -/
def urlShapeOk (portOpen : Int → Bool) (cp : Option String) : Bool :=
  match find_triton_server_url portOpen cp with
  | none => true
  | some url =>
    (parsedHostPorts (cp.getD "") ++ [8000, 8001, 8002]).any fun p =>
      portOpen p && (url == "http://localhost:" ++ toString p)

/-- C9: the port probe is total (`none`, i.e. a raised exception, maps to
`false`; a connect result maps to the `== 0` test), and every URL
`find_triton_server_url` returns — for any pid's `container_ports` string,
malformed entries included — is `http://localhost:<p>` for an answering
port `p` drawn from the parsed host ports or the standard ports. -/
theorem gtop_C9_url_safety (portOpen : Int → Bool) (cp : Option String) (r : Int) :
    _is_port_open none = false ∧ _is_port_open (some r) = (r == 0) ∧
    urlShapeOk portOpen cp = true := by
  refine ⟨rfl, rfl, ?_⟩
  unfold urlShapeOk
  cases hfind : find_triton_server_url portOpen cp with
  | none => rfl
  | some url =>
    unfold find_triton_server_url at hfind
    refine List.any_eq_true.mpr ?_
    cases hfc : find_from_container portOpen cp with
    | some u =>
      rw [hfc] at hfind
      have hu : u = url := by
        simpa using hfind
      subst hu
      unfold find_from_container at hfc
      cases cp with
      | none => exact absurd hfc (by simp)
      | some s =>
        dsimp only at hfc
        cases hs : (s == "") with
        | true => rw [hs] at hfc; exact absurd hfc (by simp)
        | false =>
          rw [hs] at hfc
          simp only [Bool.false_eq_true, if_false] at hfc
          rcases List.exists_of_findSome?_eq_some hfc with ⟨part, hpart, hfp⟩
          cases hparse : pyParseInt (((part.splitOn "→").headD "").trim) with
          | none => rw [hparse] at hfp; exact absurd hfp (by simp)
          | some hp =>
            rw [hparse] at hfp
            dsimp only at hfp
            cases hpo : portOpen hp with
            | false => rw [hpo] at hfp; exact absurd hfp (by simp)
            | true =>
              rw [hpo] at hfp
              simp only [if_true, Option.some_inj] at hfp
              refine ⟨hp, List.mem_append_left _ ?_, ?_⟩
              · exact List.mem_filterMap.mpr ⟨part, hpart, hparse⟩
              · simp [hpo, hfp]
    | none =>
      rw [hfc] at hfind
      unfold find_standard at hfind
      rcases List.exists_of_findSome?_eq_some hfind with ⟨p, hpl, hfp⟩
      cases hpo : portOpen p with
      | false => rw [hpo] at hfp; exact absurd hfp (by simp)
      | true =>
        rw [hpo] at hfp
        simp only [if_true, Option.some_inj] at hfp
        exact ⟨p, List.mem_append_right _ hpl, by simp [hpo, hfp]⟩
